import Mathlib

/-!
Verification of the `DroneDB` record store (`src/db_telemetry/src/db.py`).

The Python class `DroneDB` keeps no state of its own beyond the path of a
SQLite file; every method opens a fresh connection, runs one statement
(plus a commit for mutations) and closes the connection.  We therefore
model the contents of the SQLite file as an explicit state value
(`DroneDB` below) and each method as a function taking and returning that
state.  SQLite `AUTOINCREMENT` row ids are modelled by a sequence counter
per table: the next assigned id is `seq + 1` and ids are never reused.

`telemetry_data` is stored as the TEXT produced by `json.dumps` and read
back with `json.loads`.  A JSON document and its canonical text are in
bijection, so the TEXT column is modelled by the JSON tree it encodes.
Python-side values distinguish booleans from numbers (`PyVal`), and so
does JSON (`JsonVal`); `json.dumps` fails (raises `TypeError`) on values
that are not JSON-serializable, modelled by the constructor `PyVal.obj`
and an `Option` result for `json_dumps`.
-/

/-- A Python value appearing in a telemetry channel sequence: a number
(`num m e` denotes `m / 10 ^ e`, covering ints and the decimal literals
Python floats print as), a boolean, or some object `json.dumps` cannot
serialize. -/
inductive PyVal where
  | num (m : Int) (e : Nat)
  | pybool (b : Bool)
  | obj
deriving DecidableEq, Repr

/-- A JSON value appearing in a serialized telemetry channel sequence. -/
inductive JsonVal where
  | jnum (m : Int) (e : Nat)
  | jbool (b : Bool)
deriving DecidableEq, Repr

/-- `telemetry_data` as supplied by the caller: a dict from channel name
to a sequence of values (Python dicts iterate in insertion order, hence
an association list). -/
abbrev PyTelemetry := List (String × List PyVal)

/-- The JSON document stored in the `telemetry_data` TEXT column. -/
abbrev TelemetryJson := List (String × List JsonVal)

/-- `json.dumps` on one channel value. -/
def dumpVal : PyVal → Option JsonVal
  | .num m e => some (.jnum m e)
  | .pybool b => some (.jbool b)
  | .obj => none

/-- `json.loads` on one channel value. -/
def loadVal : JsonVal → PyVal
  | .jnum m e => .num m e
  | .jbool b => .pybool b

/-- `json.dumps` on one channel sequence. -/
def json_dump_seq : List PyVal → Option (List JsonVal)
  | [] => some []
  | v :: vs =>
    match dumpVal v, json_dump_seq vs with
    | some j, some js => some (j :: js)
    | _, _ => none

/-- `json.loads` on one channel sequence. -/
def json_load_seq (js : List JsonVal) : List PyVal :=
  js.map loadVal

/-- `json.dumps(telemetry_data)` (`db.py` line 67): `none` models the
`TypeError` raised on non-serializable input. -/
def json_dumps : PyTelemetry → Option TelemetryJson
  | [] => some []
  | (k, vs) :: rest =>
    match json_dump_seq vs, json_dumps rest with
    | some js, some tj => some ((k, js) :: tj)
    | _, _ => none

/-- `json.loads(result[2])` (`db.py` line 101). -/
def json_loads (tj : TelemetryJson) : PyTelemetry :=
  tj.map (fun p => (p.1, json_load_seq p.2))

/-- A store failure distinct from absence (spec section 7, class 2).  The
only store failure expressible in the model is a serialization failure of
`json.dumps`. -/
inductive StorageError where
  | serializationError
deriving DecidableEq, Repr

/-- A row of the `flight_logs` table (minus the `id` primary key). -/
structure FlightLogRow where
  timestamp : String
  telemetry_data : TelemetryJson
deriving DecidableEq, Repr

/-- A row of the `detections` table (minus the `id` primary key).  The
`bhp`, `worker` and `change` columns are `INTEGER NOT NULL`, hence `Int`. -/
structure DetectionRow where
  timestamp : String
  category : String
  latitude : Rat
  longitude : Rat
  picture : Option String
  bhp : Int
  worker : Int
  change : Int
deriving DecidableEq, Repr

/-- Contents of the SQLite file: both tables (rows keyed by id, in rowid
order) and the `AUTOINCREMENT` sequence of each table. -/
structure DroneDB where
  flight_logs : List (Int × FlightLogRow)
  flight_seq : Int
  detections : List (Int × DetectionRow)
  det_seq : Int
deriving DecidableEq, Repr

/-- A freshly created database file after `_create_tables`. -/
def emptyDB : DroneDB := ⟨[], 0, [], 0⟩

/-- The dict returned by `get_flight_log` / an element of the list
returned by `get_all_flight_logs`. -/
structure FlightLogRecord where
  id : Int
  timestamp : String
  telemetry_data : PyTelemetry
deriving DecidableEq, Repr

/-- The dict returned by `get_detection` / an element of the list
returned by `get_all_detections`: the flag columns are passed through
Python `bool(...)`. -/
structure DetectionRecord where
  id : Int
  timestamp : String
  category : String
  latitude : Rat
  longitude : Rat
  picture : Option String
  bhp : Bool
  worker : Bool
  change : Bool
deriving DecidableEq, Repr

/-- Python `1 if b else 0` (`db.py` lines 182, 290-292). -/
def boolToInt (b : Bool) : Int :=
  if b then 1 else 0

/-- Python `bool(i)` on an integer column value (`db.py` lines 220-222). -/
def pyBool (i : Int) : Bool :=
  i != 0

/-- `DroneDB.add_flight_log` (`db.py` lines 52-78): serialize the
telemetry to JSON text, INSERT, return `cursor.lastrowid`.  `json.dumps`
runs before the INSERT, so a serialization failure leaves the file
unchanged and propagates to the caller. -/
def DroneDB.add_flight_log (db : DroneDB) (timestamp : String)
    (telemetry_data : PyTelemetry) : Except StorageError Int × DroneDB :=
  match json_dumps telemetry_data with
  | none => (.error .serializationError, db)
  | some telemetry_json =>
    let log_id := db.flight_seq + 1
    (.ok log_id,
      { db with
          flight_logs := db.flight_logs ++ [(log_id, ⟨timestamp, telemetry_json⟩)],
          flight_seq := log_id })

/-- Rebuild the result dict of `get_flight_log` from a stored row. -/
def rowToFlightLogRecord (p : Int × FlightLogRow) : FlightLogRecord :=
  ⟨p.1, p.2.timestamp, json_loads p.2.telemetry_data⟩

/-- `DroneDB.get_flight_log` (`db.py` lines 80-103): SELECT by id, build
the dict (parsing the telemetry JSON), or return `None`. -/
def DroneDB.get_flight_log (db : DroneDB) (log_id : Int) : Option FlightLogRecord :=
  (db.flight_logs.find? (fun p => p.1 == log_id)).map rowToFlightLogRecord

/-- `DroneDB.get_all_flight_logs` (`db.py` lines 105-126). -/
def DroneDB.get_all_flight_logs (db : DroneDB) : List FlightLogRecord :=
  db.flight_logs.map rowToFlightLogRecord

/-- `DroneDB.delete_flight_log` (`db.py` lines 128-146): DELETE by id,
return `cursor.rowcount > 0`. -/
def DroneDB.delete_flight_log (db : DroneDB) (log_id : Int) : Bool × DroneDB :=
  let remaining := db.flight_logs.filter (fun p => p.1 != log_id)
  (decide (remaining.length < db.flight_logs.length),
    { db with flight_logs := remaining })

/-- `DroneDB.add_detection` (`db.py` lines 149-189): INSERT with the flag
booleans written as `1 if b else 0`, return `cursor.lastrowid`. -/
def DroneDB.add_detection (db : DroneDB) (timestamp category : String)
    (latitude longitude : Rat) (picture : Option String)
    (bhp worker change : Bool) : Int × DroneDB :=
  let detection_id := db.det_seq + 1
  (detection_id,
    { db with
        detections := db.detections ++ [(detection_id,
          ⟨timestamp, category, latitude, longitude, picture,
           boolToInt bhp, boolToInt worker, boolToInt change⟩)],
        det_seq := detection_id })

/-- Rebuild the result dict of `get_detection` from a stored row,
applying `bool(...)` to the three flag columns. -/
def rowToDetectionRecord (p : Int × DetectionRow) : DetectionRecord :=
  ⟨p.1, p.2.timestamp, p.2.category, p.2.latitude, p.2.longitude, p.2.picture,
   pyBool p.2.bhp, pyBool p.2.worker, pyBool p.2.change⟩

/-- `DroneDB.get_detection` (`db.py` lines 191-224): SELECT by id, build
the dict with `bool(...)` around the flags, or return `None`. -/
def DroneDB.get_detection (db : DroneDB) (detection_id : Int) : Option DetectionRecord :=
  (db.detections.find? (fun p => p.1 == detection_id)).map rowToDetectionRecord

/-- `DroneDB.get_all_detections` (`db.py` lines 226-257). -/
def DroneDB.get_all_detections (db : DroneDB) : List DetectionRecord :=
  db.detections.map rowToDetectionRecord

/-- The merged row written by `update_detection` (`db.py` lines 285-292):
each column takes the argument when it `is not None` and the current
value otherwise; the merged flag booleans are converted back to `1`/`0`. -/
def mergeDetection (current : DetectionRecord) (timestamp category : Option String)
    (latitude longitude : Option Rat) (picture : Option String)
    (bhp worker change : Option Bool) : DetectionRow :=
  ⟨timestamp.getD current.timestamp,
   category.getD current.category,
   latitude.getD current.latitude,
   longitude.getD current.longitude,
   (match picture with
    | some p => some p
    | none => current.picture),
   boolToInt (bhp.getD current.bhp),
   boolToInt (worker.getD current.worker),
   boolToInt (change.getD current.change)⟩

/-- Effect of `UPDATE detections SET ... WHERE id = ?` on the stored rows:
every row whose id matches gets the new column values. -/
def updateRows (l : List (Int × DetectionRow)) (i : Int) (r : DetectionRow) :
    List (Int × DetectionRow) :=
  l.map (fun p => if p.1 == i then (p.1, r) else p)

/-- `DroneDB.update_detection` (`db.py` lines 259-309): fetch the current
record via `get_detection` (returning `False` if absent), merge the
provided overrides (`mergeDetection`), UPDATE every column of the row
with the given id, return `cursor.rowcount > 0`. -/
def DroneDB.update_detection (db : DroneDB) (detection_id : Int)
    (timestamp category : Option String) (latitude longitude : Option Rat)
    (picture : Option String) (bhp worker change : Option Bool) : Bool × DroneDB :=
  match db.get_detection detection_id with
  | none => (false, db)
  | some current =>
    let newRow := mergeDetection current timestamp category latitude longitude
      picture bhp worker change
    (db.detections.any (fun p => p.1 == detection_id),
      { db with detections := updateRows db.detections detection_id newRow })

/-- `DroneDB.delete_detection` (`db.py` lines 311-329): DELETE by id,
return `cursor.rowcount > 0`. -/
def DroneDB.delete_detection (db : DroneDB) (detection_id : Int) : Bool × DroneDB :=
  let remaining := db.detections.filter (fun p => p.1 != detection_id)
  (decide (remaining.length < db.detections.length),
    { db with detections := remaining })

/-- Invariant of every database reachable from a fresh file: row ids are
pairwise distinct within each table and never exceed the table's
`AUTOINCREMENT` sequence value. -/
def DroneDB.WF (db : DroneDB) : Prop :=
  (db.flight_logs.map Prod.fst).Nodup ∧
  (∀ p ∈ db.flight_logs, p.1 ≤ db.flight_seq) ∧
  (db.detections.map Prod.fst).Nodup ∧
  (∀ p ∈ db.detections, p.1 ≤ db.det_seq)

instance (db : DroneDB) : Decidable db.WF := by
  unfold DroneDB.WF
  infer_instance

/-! ### Sequences of operations against one store -/

/-- One call against the store. -/
inductive Op where
  | addLog (ts : String) (td : PyTelemetry)
  | getLog (i : Int)
  | getAllLogs
  | delLog (i : Int)
  | addDet (ts cat : String) (la lo : Rat) (pic : Option String) (b w c : Bool)
  | getDet (i : Int)
  | getAllDets
  | updDet (i : Int) (t c : Option String) (la lo : Option Rat) (pic : Option String)
      (b w ch : Option Bool)
  | delDet (i : Int)

/-- Run a sequence of calls, returning the final database together with
the number of `add_flight_log` calls made and the number of
`delete_flight_log` calls that returned `True`.  An uncaught exception
from `add_flight_log` aborts the sequence. -/
def runOps : DroneDB → List Op → Except StorageError (DroneDB × Nat × Nat)
  | db, [] => .ok (db, 0, 0)
  | db, .addLog ts td :: rest =>
    match db.add_flight_log ts td with
    | (.ok _r, db') =>
      match runOps db' rest with
      | .ok (dbf, a, s) => .ok (dbf, a + 1, s)
      | .error e => .error e
    | (.error e, _db') => .error e
  | db, .delLog i :: rest =>
    match runOps (db.delete_flight_log i).2 rest with
    | .ok (dbf, a, s) => .ok (dbf, a, if (db.delete_flight_log i).1 then s + 1 else s)
    | .error e => .error e
  | db, .getLog _ :: rest => runOps db rest
  | db, .getAllLogs :: rest => runOps db rest
  | db, .addDet ts cat la lo pic b w c :: rest =>
    runOps (db.add_detection ts cat la lo pic b w c).2 rest
  | db, .getDet _ :: rest => runOps db rest
  | db, .getAllDets :: rest => runOps db rest
  | db, .updDet i t c la lo pic b w ch :: rest =>
    runOps (db.update_detection i t c la lo pic b w ch).2 rest
  | db, .delDet i :: rest => runOps (db.delete_detection i).2 rest

/-- A concrete run: two adds, one successful delete, one failed delete. -/
def opsW : List Op :=
  [.addLog "t1" [("Roll", [.num 1 0])], .addLog "t2" [], .delLog 1, .delLog 99]

/-- The store `opsW` leaves behind. -/
def dbW7 : DroneDB :=
  ⟨[(2, ⟨"t2", []⟩)], 2, [], 0⟩

/-- Telemetry of the spec scenario: channels Roll `[1.0, 1.5]` and
Armed `[true, true]`. -/
def tdC1 : PyTelemetry :=
  [("Roll", [.num 10 1, .num 15 1]), ("Armed", [.pybool true, .pybool true])]

/-- The JSON document `json.dumps` produces for `tdC1`. -/
def tjC1 : TelemetryJson :=
  [("Roll", [.jnum 10 1, .jnum 15 1]), ("Armed", [.jbool true, .jbool true])]

/-- The store after adding the scenario flight log to a fresh file. -/
def dbC1 : DroneDB :=
  ⟨[(1, ⟨"2024-01-01T00:00:00", tjC1⟩)], 1, [], 0⟩

/-- `dbC1` after a second flight log with empty telemetry. -/
def dbW9 : DroneDB :=
  ⟨[(1, ⟨"2024-01-01T00:00:00", tjC1⟩), (2, ⟨"t3", []⟩)], 2, [], 0⟩

/-- A store holding one detection, added with flags
`bhp=true, worker=true, change=false`. -/
def dbDet1 : DroneDB :=
  ⟨[], 0, [(1, ⟨"2024-01-02T10:00:00", "Worker", 52, 21, none, 1, 1, 0⟩)], 1⟩

/-- The record `get_detection` returns for the detection of `dbDet1`. -/
def curDet1 : DetectionRecord :=
  ⟨1, "2024-01-02T10:00:00", "Worker", 52, 21, none, true, true, false⟩

/-- A store holding one detection with a picture attached. -/
def dbPic : DroneDB :=
  ⟨[], 0, [(1, ⟨"t", "Worker", 52, 21, some "img.jpg", 1, 0, 0⟩)], 1⟩

/-- The record `get_detection` returns for the detection of `dbPic`. -/
def curPic : DetectionRecord :=
  ⟨1, "t", "Worker", 52, 21, some "img.jpg", true, false, false⟩

/-! ### Round-trip of the JSON serialization -/

theorem loadVal_dumpVal {v : PyVal} {j : JsonVal} (h : dumpVal v = some j) :
    loadVal j = v := by
  cases v with
  | num m e => simp [dumpVal] at h; subst h; rfl
  | pybool b => simp [dumpVal] at h; subst h; rfl
  | obj => simp [dumpVal] at h

theorem json_load_seq_dump {vs : List PyVal} {js : List JsonVal}
    (h : json_dump_seq vs = some js) : json_load_seq js = vs := by
  induction vs generalizing js with
  | nil =>
    simp only [json_dump_seq, Option.some.injEq] at h
    subst h; rfl
  | cons v vs ih =>
    simp only [json_dump_seq] at h
    cases hv : dumpVal v with
    | none => rw [hv] at h; simp at h
    | some j =>
      cases hs : json_dump_seq vs with
      | none => rw [hv, hs] at h; simp at h
      | some js' =>
        rw [hv, hs] at h
        simp only [Option.some.injEq] at h
        subst h
        simp only [json_load_seq, List.map_cons]
        rw [loadVal_dumpVal hv]
        have := ih hs
        simp only [json_load_seq] at this
        rw [this]

theorem json_loads_dumps {td : PyTelemetry} {tj : TelemetryJson}
    (h : json_dumps td = some tj) : json_loads tj = td := by
  induction td generalizing tj with
  | nil =>
    simp only [json_dumps, Option.some.injEq] at h
    subst h; rfl
  | cons kv td ih =>
    obtain ⟨k, vs⟩ := kv
    simp only [json_dumps] at h
    cases hv : json_dump_seq vs with
    | none => rw [hv] at h; simp at h
    | some js =>
      cases hs : json_dumps td with
      | none => rw [hv, hs] at h; simp at h
      | some tj' =>
        rw [hv, hs] at h
        simp only [Option.some.injEq] at h
        subst h
        simp only [json_loads, List.map_cons]
        rw [json_load_seq_dump hv]
        have := ih hs
        simp only [json_loads] at this
        rw [this]

theorem pyBool_boolToInt (b : Bool) : pyBool (boolToInt b) = b := by
  cases b <;> rfl

/-! ### Lemmas on id-keyed row lists -/

theorem find?_key_append {α : Type} {l : List (Int × α)} {i : Int} {r : α}
    (h : ∀ p ∈ l, p.1 ≠ i) :
    (l ++ [(i, r)]).find? (fun p => p.1 == i) = some (i, r) := by
  induction l with
  | nil =>
    rw [List.nil_append]
    exact List.find?_cons_of_pos _ (by simp)
  | cons a l ih =>
    have ha : ¬((fun p : Int × α => p.1 == i) a = true) := by
      simpa using h a (List.mem_cons_self a l)
    rw [List.cons_append,
      List.find?_cons_of_neg (p := fun p => p.1 == i) (a := a) _ ha]
    exact ih (fun p hp => h p (List.mem_cons_of_mem a hp))

theorem find?_key_map {α : Type} {g : Int × α → Int × α}
    (hg : ∀ p, (g p).1 = p.1) (l : List (Int × α)) (k : Int) :
    (l.map g).find? (fun p => p.1 == k) = (l.find? (fun p => p.1 == k)).map g := by
  induction l with
  | nil => rfl
  | cons a l ih =>
    by_cases h : (a.1 == k) = true
    · rw [List.map_cons,
        List.find?_cons_of_pos (p := fun p => p.1 == k) (a := g a) _
          (show ((g a).1 == k) = true by rw [hg a]; exact h),
        List.find?_cons_of_pos (p := fun p => p.1 == k) (a := a) _ h]
      rfl
    · rw [List.map_cons,
        List.find?_cons_of_neg (p := fun p => p.1 == k) (a := g a) _
          (show ¬((g a).1 == k) = true by rw [hg a]; exact h),
        List.find?_cons_of_neg (p := fun p => p.1 == k) (a := a) _ h, ih]

theorem find?_key_eq_none {α : Type} {l : List (Int × α)} {i : Int}
    (h : ∀ p ∈ l, p.1 ≠ i) : l.find? (fun p => p.1 == i) = none :=
  List.find?_eq_none.mpr (fun p hp => by simpa using h p hp)

theorem find?_key_mem_and_key {α : Type} {l : List (Int × α)} {i : Int} {p : Int × α}
    (h : l.find? (fun p => p.1 == i) = some p) : p ∈ l ∧ p.1 = i :=
  ⟨List.mem_of_find?_eq_some h, by simpa using List.find?_some h⟩

theorem filter_key_eq_self {α : Type} {l : List (Int × α)} {i : Int}
    (h : ∀ p ∈ l, p.1 ≠ i) : l.filter (fun p => p.1 != i) = l :=
  List.filter_eq_self.mpr (fun p hp => by simpa using h p hp)

theorem length_filter_key_of_mem {α : Type} {l : List (Int × α)} {i : Int}
    (hnd : (l.map Prod.fst).Nodup) (hm : ∃ p ∈ l, p.1 = i) :
    (l.filter (fun p => p.1 != i)).length + 1 = l.length := by
  induction l with
  | nil => simp at hm
  | cons a l ih =>
    rw [List.map_cons, List.nodup_cons] at hnd
    by_cases ha : a.1 = i
    · have hl : ∀ p ∈ l, p.1 ≠ i := by
        intro p hp hpi
        apply hnd.1
        rw [ha, ← hpi]
        exact List.mem_map_of_mem Prod.fst hp
      rw [List.filter_cons_of_neg (by simpa using ha), filter_key_eq_self hl]
      simp
    · rcases hm with ⟨p, hp, hpi⟩
      rcases List.mem_cons.mp hp with rfl | hpl
      · exact absurd hpi ha
      · rw [List.filter_cons_of_pos (by simpa using ha)]
        have := ih hnd.2 ⟨p, hpl, hpi⟩
        simp only [List.length_cons]
        omega

theorem delete_hit_iff {α : Type} (l : List (Int × α)) (i : Int) :
    (l.filter (fun p => p.1 != i)).length < l.length ↔ ∃ p ∈ l, p.1 = i := by
  rw [List.length_filter_lt_length_iff_exists]
  simp

/-! ### Characterization of the operations -/

theorem add_flight_log_of_dumps {db : DroneDB} {ts : String} {td : PyTelemetry}
    {tj : TelemetryJson} (h : json_dumps td = some tj) :
    db.add_flight_log ts td =
      (.ok (db.flight_seq + 1),
        { db with
            flight_logs := db.flight_logs ++ [(db.flight_seq + 1, ⟨ts, tj⟩)],
            flight_seq := db.flight_seq + 1 }) := by
  unfold DroneDB.add_flight_log
  rw [h]

theorem add_flight_log_of_dumps_none {db : DroneDB} {ts : String} {td : PyTelemetry}
    (h : json_dumps td = none) :
    db.add_flight_log ts td = (.error .serializationError, db) := by
  unfold DroneDB.add_flight_log
  rw [h]

theorem add_flight_log_ok {db db' : DroneDB} {ts : String} {td : PyTelemetry} {i : Int}
    (h : db.add_flight_log ts td = (.ok i, db')) :
    ∃ tj, json_dumps td = some tj ∧ i = db.flight_seq + 1 ∧
      db' = { db with flight_logs := db.flight_logs ++ [(i, ⟨ts, tj⟩)], flight_seq := i } := by
  cases hd : json_dumps td with
  | none =>
    rw [add_flight_log_of_dumps_none hd] at h
    simp at h
  | some tj =>
    rw [add_flight_log_of_dumps hd] at h
    simp only [Prod.mk.injEq, Except.ok.injEq] at h
    obtain ⟨h1, h2⟩ := h
    subst h1
    exact ⟨tj, rfl, rfl, h2.symm⟩

theorem get_flight_log_some {db : DroneDB} {i : Int} {rec : FlightLogRecord}
    (h : db.get_flight_log i = some rec) :
    ∃ q ∈ db.flight_logs, q.1 = i ∧ rowToFlightLogRecord q = rec := by
  unfold DroneDB.get_flight_log at h
  cases hf : db.flight_logs.find? (fun q => q.1 == i) with
  | none => rw [hf] at h; simp at h
  | some q =>
    rw [hf] at h
    simp only [Option.map_some', Option.some.injEq] at h
    obtain ⟨hmem, hkey⟩ := find?_key_mem_and_key hf
    exact ⟨q, hmem, hkey, h⟩

theorem get_detection_some {db : DroneDB} {i : Int} {rec : DetectionRecord}
    (h : db.get_detection i = some rec) :
    ∃ q ∈ db.detections, q.1 = i ∧ rowToDetectionRecord q = rec := by
  unfold DroneDB.get_detection at h
  cases hf : db.detections.find? (fun q => q.1 == i) with
  | none => rw [hf] at h; simp at h
  | some q =>
    rw [hf] at h
    simp only [Option.map_some', Option.some.injEq] at h
    obtain ⟨hmem, hkey⟩ := find?_key_mem_and_key hf
    exact ⟨q, hmem, hkey, h⟩

theorem add_detection_eq (db : DroneDB) (ts cat : String) (la lo : Rat)
    (pic : Option String) (b w c : Bool) :
    db.add_detection ts cat la lo pic b w c =
      (db.det_seq + 1,
        { db with
            detections := db.detections ++ [(db.det_seq + 1,
              ⟨ts, cat, la, lo, pic, boolToInt b, boolToInt w, boolToInt c⟩)],
            det_seq := db.det_seq + 1 }) :=
  rfl

theorem update_detection_found {db : DroneDB} {i : Int} {cur : DetectionRecord}
    (hg : db.get_detection i = some cur) (t c : Option String) (la lo : Option Rat)
    (pic : Option String) (b w ch : Option Bool) :
    db.update_detection i t c la lo pic b w ch =
      (true,
        { db with detections :=
            updateRows db.detections i (mergeDetection cur t c la lo pic b w ch) }) := by
  obtain ⟨q, hmem, hkey, -⟩ := get_detection_some hg
  unfold DroneDB.update_detection
  rw [hg]
  have hany : db.detections.any (fun p => p.1 == i) = true :=
    List.any_eq_true.mpr ⟨q, hmem, by simpa using hkey⟩
  rw [hany]

theorem update_detection_absent {db : DroneDB} {i : Int}
    (hg : db.get_detection i = none) (t c : Option String) (la lo : Option Rat)
    (pic : Option String) (b w ch : Option Bool) :
    db.update_detection i t c la lo pic b w ch = (false, db) := by
  unfold DroneDB.update_detection
  rw [hg]

/-! ### Preservation of the well-formedness invariant -/

theorem map_fst_map_key_preserve {α : Type} {g : Int × α → Int × α}
    (hg : ∀ p, (g p).1 = p.1) (l : List (Int × α)) :
    (l.map g).map Prod.fst = l.map Prod.fst := by
  rw [List.map_map]
  exact List.map_congr_left (fun p _ => hg p)

theorem map_fst_updateRows (l : List (Int × DetectionRow)) (i : Int) (r : DetectionRow) :
    (updateRows l i r).map Prod.fst = l.map Prod.fst := by
  unfold updateRows
  refine map_fst_map_key_preserve ?_ l
  intro q
  by_cases hq : (q.1 == i) = true <;> simp [hq]

theorem updateRows_key_preserve (i : Int)
    (r : DetectionRow) (q : Int × DetectionRow) :
    ((fun p : Int × DetectionRow => if p.1 == i then (p.1, r) else p) q).1 = q.1 := by
  by_cases hq : (q.1 == i) = true <;> simp [hq]

theorem WF_add_flight_log {db : DroneDB} (h : db.WF) (ts : String) (td : PyTelemetry) :
    (db.add_flight_log ts td).2.WF := by
  cases hd : json_dumps td with
  | none => rw [add_flight_log_of_dumps_none hd]; exact h
  | some tj =>
    rw [add_flight_log_of_dumps hd]
    obtain ⟨h1, h2, h3, h4⟩ := h
    refine ⟨?_, ?_, h3, h4⟩
    · rw [List.map_append]
      refine List.Nodup.append h1 (List.nodup_singleton _) ?_
      intro a ha hb
      simp only [List.map_cons, List.map_nil, List.mem_singleton] at hb
      obtain ⟨p, hp, hpa⟩ := List.mem_map.mp ha
      have := h2 p hp
      omega
    · intro p hp
      show p.1 ≤ db.flight_seq + 1
      rcases List.mem_append.mp hp with hl | hr
      · have := h2 p hl
        omega
      · rw [List.mem_singleton] at hr
        subst hr
        exact le_refl _

theorem WF_delete_flight_log {db : DroneDB} (h : db.WF) (i : Int) :
    (db.delete_flight_log i).2.WF := by
  obtain ⟨h1, h2, h3, h4⟩ := h
  refine ⟨?_, ?_, h3, h4⟩
  · exact h1.sublist ((List.filter_sublist _).map Prod.fst)
  · intro p hp
    exact h2 p (List.mem_of_mem_filter hp)

theorem WF_add_detection {db : DroneDB} (h : db.WF) (ts cat : String) (la lo : Rat)
    (pic : Option String) (b w c : Bool) :
    (db.add_detection ts cat la lo pic b w c).2.WF := by
  rw [add_detection_eq]
  obtain ⟨h1, h2, h3, h4⟩ := h
  refine ⟨h1, h2, ?_, ?_⟩
  · rw [List.map_append]
    refine List.Nodup.append h3 (List.nodup_singleton _) ?_
    intro a ha hb
    simp only [List.map_cons, List.map_nil, List.mem_singleton] at hb
    obtain ⟨p, hp, hpa⟩ := List.mem_map.mp ha
    have := h4 p hp
    omega
  · intro p hp
    show p.1 ≤ db.det_seq + 1
    rcases List.mem_append.mp hp with hl | hr
    · have := h4 p hl
      omega
    · rw [List.mem_singleton] at hr
      subst hr
      exact le_refl _

theorem WF_delete_detection {db : DroneDB} (h : db.WF) (i : Int) :
    (db.delete_detection i).2.WF := by
  obtain ⟨h1, h2, h3, h4⟩ := h
  refine ⟨h1, h2, ?_, ?_⟩
  · exact h3.sublist ((List.filter_sublist _).map Prod.fst)
  · intro p hp
    exact h4 p (List.mem_of_mem_filter hp)

theorem WF_update_detection {db : DroneDB} (h : db.WF) (i : Int)
    (t c : Option String) (la lo : Option Rat) (pic : Option String)
    (b w ch : Option Bool) :
    (db.update_detection i t c la lo pic b w ch).2.WF := by
  cases hg : db.get_detection i with
  | none => rw [update_detection_absent hg]; exact h
  | some cur =>
    rw [update_detection_found hg]
    obtain ⟨h1, h2, h3, h4⟩ := h
    refine ⟨h1, h2, ?_, ?_⟩
    · rw [map_fst_updateRows]
      exact h3
    · intro p hp
      show p.1 ≤ db.det_seq
      have hp' : p ∈ updateRows db.detections i (mergeDetection cur t c la lo pic b w ch) := hp
      unfold updateRows at hp'
      obtain ⟨q, hq, rfl⟩ := List.mem_map.mp hp'
      rw [updateRows_key_preserve]
      exact h4 q hq

theorem emptyDB_WF : emptyDB.WF := by
  refine ⟨List.nodup_nil, ?_, List.nodup_nil, ?_⟩ <;> intro p hp <;> simp [emptyDB] at hp

/-! ### Characterization of the delete operations -/

theorem delete_flight_log_eq (db : DroneDB) (i : Int) :
    db.delete_flight_log i =
      (decide ((db.flight_logs.filter (fun p => p.1 != i)).length < db.flight_logs.length),
        { db with flight_logs := db.flight_logs.filter (fun p => p.1 != i) }) :=
  rfl

theorem delete_detection_eq (db : DroneDB) (i : Int) :
    db.delete_detection i =
      (decide ((db.detections.filter (fun p => p.1 != i)).length < db.detections.length),
        { db with detections := db.detections.filter (fun p => p.1 != i) }) :=
  rfl

theorem delete_flight_log_flag (db : DroneDB) (i : Int) :
    (db.delete_flight_log i).1 = true ↔ ∃ p ∈ db.flight_logs, p.1 = i := by
  rw [delete_flight_log_eq]
  show decide _ = true ↔ _
  rw [decide_eq_true_eq]
  exact delete_hit_iff _ _

theorem delete_detection_flag (db : DroneDB) (i : Int) :
    (db.delete_detection i).1 = true ↔ ∃ p ∈ db.detections, p.1 = i := by
  rw [delete_detection_eq]
  show decide _ = true ↔ _
  rw [decide_eq_true_eq]
  exact delete_hit_iff _ _

theorem delete_flight_log_false {db db' : DroneDB} {i : Int}
    (h : db.delete_flight_log i = (false, db')) : db' = db := by
  rw [delete_flight_log_eq] at h
  simp only [Prod.mk.injEq, decide_eq_false_iff_not, not_lt] at h
  obtain ⟨hle, hdb⟩ := h
  have hsub := List.filter_sublist (p := fun p => p.1 != i) db.flight_logs
  have heq := hsub.eq_of_length (le_antisymm hsub.length_le hle)
  rw [heq] at hdb
  exact hdb.symm

theorem delete_detection_false {db db' : DroneDB} {i : Int}
    (h : db.delete_detection i = (false, db')) : db' = db := by
  rw [delete_detection_eq] at h
  simp only [Prod.mk.injEq, decide_eq_false_iff_not, not_lt] at h
  obtain ⟨hle, hdb⟩ := h
  have hsub := List.filter_sublist (p := fun p => p.1 != i) db.detections
  have heq := hsub.eq_of_length (le_antisymm hsub.length_le hle)
  rw [heq] at hdb
  exact hdb.symm

theorem delete_flight_log_true {db db' : DroneDB} {i : Int} (hnd : (db.flight_logs.map Prod.fst).Nodup)
    (h : db.delete_flight_log i = (true, db')) :
    db'.flight_logs = db.flight_logs.filter (fun p => p.1 != i) ∧
      db'.flight_logs.length + 1 = db.flight_logs.length := by
  rw [delete_flight_log_eq] at h
  simp only [Prod.mk.injEq, decide_eq_true_eq] at h
  obtain ⟨hlt, hdb⟩ := h
  have hm := (delete_hit_iff db.flight_logs i).mp hlt
  have hlen := length_filter_key_of_mem hnd hm
  rw [← hdb]
  exact ⟨rfl, hlen⟩

theorem delete_detection_true {db db' : DroneDB} {i : Int} (hnd : (db.detections.map Prod.fst).Nodup)
    (h : db.delete_detection i = (true, db')) :
    db'.detections = db.detections.filter (fun p => p.1 != i) ∧
      db'.detections.length + 1 = db.detections.length := by
  rw [delete_detection_eq] at h
  simp only [Prod.mk.injEq, decide_eq_true_eq] at h
  obtain ⟨hlt, hdb⟩ := h
  have hm := (delete_hit_iff db.detections i).mp hlt
  have hlen := length_filter_key_of_mem hnd hm
  rw [← hdb]
  exact ⟨rfl, hlen⟩

theorem add_flight_log_ok_length {db db' : DroneDB} {ts : String} {td : PyTelemetry}
    {i : Int} (h : db.add_flight_log ts td = (.ok i, db')) :
    db'.flight_logs.length = db.flight_logs.length + 1 := by
  obtain ⟨tj, -, -, rfl⟩ := add_flight_log_ok h
  simp

theorem add_detection_flight_logs (db : DroneDB) (ts cat : String) (la lo : Rat)
    (pic : Option String) (b w c : Bool) :
    (db.add_detection ts cat la lo pic b w c).2.flight_logs = db.flight_logs :=
  rfl

theorem delete_detection_flight_logs (db : DroneDB) (i : Int) :
    (db.delete_detection i).2.flight_logs = db.flight_logs :=
  rfl

theorem update_detection_flight_logs (db : DroneDB) (i : Int)
    (t c : Option String) (la lo : Option Rat) (pic : Option String)
    (b w ch : Option Bool) :
    (db.update_detection i t c la lo pic b w ch).2.flight_logs = db.flight_logs := by
  cases hg : db.get_detection i with
  | none => rw [update_detection_absent hg]
  | some cur => rw [update_detection_found hg]

/-- Bookkeeping invariant of a run: the flight-log table grows by one per
`add_flight_log` call and shrinks by one per `delete_flight_log` call
that returned `True`. -/
theorem runOps_flight_logs_length {ops : List Op} :
    ∀ {db dbf : DroneDB} {a s : Nat}, db.WF →
      runOps db ops = .ok (dbf, a, s) →
      dbf.flight_logs.length + s = db.flight_logs.length + a ∧ dbf.WF := by
  induction ops with
  | nil =>
    intro db dbf a s hwf h
    simp only [runOps, Except.ok.injEq, Prod.mk.injEq] at h
    obtain ⟨h1, h2, h3⟩ := h
    subst h1; subst h2; subst h3
    exact ⟨rfl, hwf⟩
  | cons op rest ih =>
    intro db dbf a s hwf h
    cases op with
    | addLog ts td =>
      simp only [runOps] at h
      split at h
      next r db' heq =>
        split at h
        next dbf' a' s' hrun =>
          simp only [Except.ok.injEq, Prod.mk.injEq] at h
          obtain ⟨h1, h2, h3⟩ := h
          subst h1; subst h2; subst h3
          have hwf' : db'.WF := by
            have := WF_add_flight_log hwf ts td
            rw [heq] at this
            exact this
          obtain ⟨hlen, hwff⟩ := ih hwf' hrun
          have := add_flight_log_ok_length heq
          exact ⟨by omega, hwff⟩
        next e hrun => simp at h
      next e db' heq => simp at h
    | delLog i =>
      simp only [runOps] at h
      have hwf' : (db.delete_flight_log i).2.WF := WF_delete_flight_log hwf i
      split at h
      next dbf' a' s' hrun =>
        obtain ⟨hlen, hwff⟩ := ih hwf' hrun
        cases hdel : (db.delete_flight_log i).1 with
        | true =>
          rw [hdel] at h
          simp only [if_true, Except.ok.injEq, Prod.mk.injEq] at h
          obtain ⟨h1, h2, h3⟩ := h
          subst h1; subst h2; subst h3
          have hd := delete_flight_log_true hwf.1
            (show db.delete_flight_log i = (true, (db.delete_flight_log i).2) by
              rw [← hdel])
          obtain ⟨-, hlen2⟩ := hd
          exact ⟨by omega, hwff⟩
        | false =>
          rw [hdel] at h
          simp only [Bool.false_eq_true, if_false, Except.ok.injEq, Prod.mk.injEq] at h
          obtain ⟨h1, h2, h3⟩ := h
          subst h1; subst h2; subst h3
          have hd := delete_flight_log_false
            (show db.delete_flight_log i = (false, (db.delete_flight_log i).2) by
              rw [← hdel])
          rw [hd] at hlen
          exact ⟨by omega, hwff⟩
      next e hrun => simp at h
    | getLog i =>
      simp only [runOps] at h
      exact ih hwf h
    | getAllLogs =>
      simp only [runOps] at h
      exact ih hwf h
    | addDet ts cat la lo pic b w c =>
      simp only [runOps] at h
      obtain ⟨hlen, hwff⟩ := ih (WF_add_detection hwf ts cat la lo pic b w c) h
      rw [add_detection_flight_logs] at hlen
      exact ⟨hlen, hwff⟩
    | getDet i =>
      simp only [runOps] at h
      exact ih hwf h
    | getAllDets =>
      simp only [runOps] at h
      exact ih hwf h
    | updDet i t c la lo pic b w ch =>
      simp only [runOps] at h
      obtain ⟨hlen, hwff⟩ := ih (WF_update_detection hwf i t c la lo pic b w ch) h
      rw [update_detection_flight_logs] at hlen
      exact ⟨hlen, hwff⟩
    | delDet i =>
      simp only [runOps] at h
      obtain ⟨hlen, hwff⟩ := ih (WF_delete_detection hwf i) h
      rw [delete_detection_flight_logs] at hlen
      exact ⟨hlen, hwff⟩

/-! ### Shared helper lemmas for the claims -/

theorem boolToInt_eq_zero_or_one (b : Bool) : boolToInt b = 0 ∨ boolToInt b = 1 := by
  cases b
  · exact Or.inl rfl
  · exact Or.inr rfl

theorem get_detection_find? {db : DroneDB} {i : Int} {cur : DetectionRecord}
    (h : db.get_detection i = some cur) :
    ∃ q, db.detections.find? (fun p => p.1 == i) = some q ∧ q.1 = i ∧
      rowToDetectionRecord q = cur := by
  unfold DroneDB.get_detection at h
  cases hf : db.detections.find? (fun q => q.1 == i) with
  | none => rw [hf] at h; simp at h
  | some q =>
    rw [hf] at h
    simp only [Option.map_some', Option.some.injEq] at h
    exact ⟨q, rfl, (find?_key_mem_and_key hf).2, h⟩

/-- Full behaviour of a successful `update_detection`: it returns `True`,
the row with the given id now holds the merged values, and every other id
reads back exactly as before. -/
theorem update_found_get {db : DroneDB} {i : Int} {cur : DetectionRecord}
    (hg : db.get_detection i = some cur) (t c : Option String) (la lo : Option Rat)
    (pic : Option String) (b w ch : Option Bool) :
    ∃ db', db.update_detection i t c la lo pic b w ch = (true, db') ∧
      db'.get_detection i = some
        ⟨cur.id, t.getD cur.timestamp, c.getD cur.category, la.getD cur.latitude,
         lo.getD cur.longitude, pic.or cur.picture, b.getD cur.bhp, w.getD cur.worker,
         ch.getD cur.change⟩ ∧
      (∀ j, j ≠ i → db'.get_detection j = db.get_detection j) := by
  obtain ⟨q, hf, hkey, hcur⟩ := get_detection_find? hg
  refine ⟨_, update_detection_found hg t c la lo pic b w ch, ?_, ?_⟩
  · unfold DroneDB.get_detection
    show ((updateRows db.detections i (mergeDetection cur t c la lo pic b w ch)).find?
        (fun p => p.1 == i)).map rowToDetectionRecord = _
    unfold updateRows
    rw [find?_key_map (updateRows_key_preserve i _), hf]
    simp only [Option.map_some']
    rw [if_pos (by simpa using hkey)]
    have hid : cur.id = q.1 := by rw [← hcur]; rfl
    show some (rowToDetectionRecord (q.1, mergeDetection cur t c la lo pic b w ch)) = _
    unfold rowToDetectionRecord mergeDetection
    cases pic <;> simp [Option.or, hid, pyBool_boolToInt]
  · intro j hj
    unfold DroneDB.get_detection
    show ((updateRows db.detections i (mergeDetection cur t c la lo pic b w ch)).find?
        (fun p => p.1 == j)).map rowToDetectionRecord = _
    unfold updateRows
    rw [find?_key_map (updateRows_key_preserve i _)]
    cases hfj : db.detections.find? (fun p => p.1 == j) with
    | none => rfl
    | some p =>
      have hpj := (find?_key_mem_and_key hfj).2
      have hne : ¬((p.1 == i) = true) := by
        simp only [hpj, beq_iff_eq]
        exact hj
      simp only [Option.map_some']
      rw [if_neg hne]

/-! ### The claims -/

/-- C1: for every valid input `(timestamp, telemetry_data)` on a
well-formed store, `get_flight_log` applied to the id `add_flight_log`
returned yields a record whose `timestamp` and `telemetry_data` are
structurally equal to the inputs; in particular booleans in the telemetry
sequences come back as `PyVal.pybool`, never as numbers. -/
theorem round_trip_flight_log {db db' : DroneDB} {ts : String} {td : PyTelemetry}
    {i : Int} (hwf : db.WF) (h : db.add_flight_log ts td = (.ok i, db')) :
    db'.get_flight_log i = some ⟨i, ts, td⟩ := by
  obtain ⟨tj, hdump, hi, hdb⟩ := add_flight_log_ok h
  subst hi
  subst hdb
  have hne : ∀ p ∈ db.flight_logs, p.1 ≠ db.flight_seq + 1 := by
    intro p hp hpi
    have := hwf.2.1 p hp
    omega
  unfold DroneDB.get_flight_log
  show ((db.flight_logs ++ [(db.flight_seq + 1, (⟨ts, tj⟩ : FlightLogRow))]).find?
      (fun p => p.1 == db.flight_seq + 1)).map rowToFlightLogRecord = _
  rw [find?_key_append hne]
  show some (⟨db.flight_seq + 1, ts, json_loads tj⟩ : FlightLogRecord) = _
  rw [json_loads_dumps hdump]

theorem round_trip_flight_log_witness :
    dbC1.get_flight_log 1 = some ⟨1, "2024-01-01T00:00:00", tdC1⟩ :=
  round_trip_flight_log emptyDB_WF (by rfl)

/-- C2: on an existing detection id, `update_detection` succeeds and is a
read-before-write merge: every provided field takes the new value, every
omitted field keeps the stored value, and no other row changes. -/
theorem update_changes_exactly_provided_fields {db : DroneDB} {i : Int}
    {cur : DetectionRecord} (hg : db.get_detection i = some cur)
    (t c : Option String) (la lo : Option Rat) (pic : Option String)
    (b w ch : Option Bool) :
    ∃ db', db.update_detection i t c la lo pic b w ch = (true, db') ∧
      db'.get_detection i = some
        ⟨cur.id, t.getD cur.timestamp, c.getD cur.category, la.getD cur.latitude,
         lo.getD cur.longitude, pic.or cur.picture, b.getD cur.bhp, w.getD cur.worker,
         ch.getD cur.change⟩ ∧
      (∀ j, j ≠ i → db'.get_detection j = db.get_detection j) :=
  update_found_get hg t c la lo pic b w ch

theorem update_changes_exactly_provided_fields_witness :
    ∃ db', dbDet1.update_detection 1 none (some "Hazard") none none none none none none
        = (true, db') ∧
      db'.get_detection 1 = some
        ⟨curDet1.id, curDet1.timestamp, "Hazard", curDet1.latitude, curDet1.longitude,
         curDet1.picture, curDet1.bhp, curDet1.worker, curDet1.change⟩ ∧
      (∀ j, j ≠ 1 → db'.get_detection j = dbDet1.get_detection j) :=
  update_changes_exactly_provided_fields (by rfl) none (some "Hazard") none none none
    none none none

/-- C3: `update_detection` on an id matching no stored detection returns
`False` and leaves the store completely unchanged, whatever combination
of field arguments is passed. -/
theorem update_nonexistent_returns_false {db : DroneDB} {i : Int}
    (habs : ∀ q ∈ db.detections, q.1 ≠ i) (t c : Option String)
    (la lo : Option Rat) (pic : Option String) (b w ch : Option Bool) :
    db.update_detection i t c la lo pic b w ch = (false, db) := by
  apply update_detection_absent
  unfold DroneDB.get_detection
  rw [find?_key_eq_none habs]
  rfl

theorem update_nonexistent_returns_false_witness :
    dbDet1.update_detection 99 (some "2030-01-01") (some "X") none none (some "p.jpg")
      (some true) none none = (false, dbDet1) :=
  update_nonexistent_returns_false (by decide) (some "2030-01-01") (some "X") none none
    (some "p.jpg") (some true) none none

/-- C10: passing a field explicitly as `None` to `update_detection` is the
same value as omitting it, so the stored value is retained; consequently a
picture, once set, can never be cleared back to absent by any
`update_detection` call. -/
theorem update_none_picture_indistinguishable {db : DroneDB} {i : Int}
    {cur : DetectionRecord} (hg : db.get_detection i = some cur)
    (t c : Option String) (la lo : Option Rat) (b w ch : Option Bool) :
    (∃ db', db.update_detection i t c la lo none b w ch = (true, db') ∧
      ∃ rec, db'.get_detection i = some rec ∧ rec.picture = cur.picture) ∧
    (∀ pic0, cur.picture = some pic0 → ∀ pic, ∃ db',
      db.update_detection i t c la lo pic b w ch = (true, db') ∧
      ∃ rec, db'.get_detection i = some rec ∧ rec.picture.isSome = true) := by
  constructor
  · obtain ⟨db', h1, h2, -⟩ := update_found_get hg t c la lo none b w ch
    exact ⟨db', h1, _, h2, rfl⟩
  · intro pic0 hpic pic
    obtain ⟨db', h1, h2, -⟩ := update_found_get hg t c la lo pic b w ch
    refine ⟨db', h1, _, h2, ?_⟩
    show (pic.or cur.picture).isSome = true
    rw [hpic]
    cases pic <;> rfl

theorem update_none_picture_indistinguishable_witness :
    (∃ db', dbPic.update_detection 1 none none none none none none none none
        = (true, db') ∧
      ∃ rec, db'.get_detection 1 = some rec ∧ rec.picture = curPic.picture) ∧
    (∀ pic0, curPic.picture = some pic0 → ∀ pic, ∃ db',
      dbPic.update_detection 1 none none none none pic none none none = (true, db') ∧
      ∃ rec, db'.get_detection 1 = some rec ∧ rec.picture.isSome = true) :=
  update_none_picture_indistinguishable (by rfl) none none none none none none none

/-- C4: `add_detection` and `update_detection` persist the three flag
booleans as the integers `0`/`1`, and both read paths (`get_detection`
and `get_all_detections`) hand the caller booleans reconstructed from the
stored integers, never the raw integers. -/
theorem detection_flags_zero_one_and_bool :
    (∀ (db db' : DroneDB) (ts cat : String) (la lo : Rat) (pic : Option String)
        (b w c : Bool) (i : Int), db.WF →
      db.add_detection ts cat la lo pic b w c = (i, db') →
      (∃ r, db'.detections = db.detections ++ [(i, r)] ∧
        r.bhp = boolToInt b ∧ r.worker = boolToInt w ∧ r.change = boolToInt c ∧
        (r.bhp = 0 ∨ r.bhp = 1) ∧ (r.worker = 0 ∨ r.worker = 1) ∧
        (r.change = 0 ∨ r.change = 1)) ∧
      (∃ rec, db'.get_detection i = some rec ∧ rec.bhp = b ∧ rec.worker = w ∧
        rec.change = c) ∧
      (∃ rec ∈ db'.get_all_detections, rec.id = i ∧ rec.bhp = b ∧ rec.worker = w ∧
        rec.change = c)) ∧
    (∀ (db : DroneDB) (i : Int) (t c : Option String) (la lo : Option Rat)
        (pic : Option String) (b w ch : Option Bool),
      ∀ q ∈ (db.update_detection i t c la lo pic b w ch).2.detections,
        q ∈ db.detections ∨
          ((q.2.bhp = 0 ∨ q.2.bhp = 1) ∧ (q.2.worker = 0 ∨ q.2.worker = 1) ∧
            (q.2.change = 0 ∨ q.2.change = 1))) := by
  constructor
  · intro db db' ts cat la lo pic b w c i hwf heq
    rw [add_detection_eq] at heq
    simp only [Prod.mk.injEq] at heq
    obtain ⟨hi, hdb⟩ := heq
    subst hi
    subst hdb
    have hne : ∀ p ∈ db.detections, p.1 ≠ db.det_seq + 1 := by
      intro p hp hpi
      have := hwf.2.2.2 p hp
      omega
    refine ⟨⟨⟨ts, cat, la, lo, pic, boolToInt b, boolToInt w, boolToInt c⟩, rfl, rfl, rfl, rfl,
        boolToInt_eq_zero_or_one b, boolToInt_eq_zero_or_one w, boolToInt_eq_zero_or_one c⟩,
      ⟨rowToDetectionRecord (db.det_seq + 1,
          ⟨ts, cat, la, lo, pic, boolToInt b, boolToInt w, boolToInt c⟩), ?_,
        pyBool_boolToInt b, pyBool_boolToInt w, pyBool_boolToInt c⟩,
      ⟨rowToDetectionRecord (db.det_seq + 1,
          ⟨ts, cat, la, lo, pic, boolToInt b, boolToInt w, boolToInt c⟩), ?_, rfl,
        pyBool_boolToInt b, pyBool_boolToInt w, pyBool_boolToInt c⟩⟩
    · unfold DroneDB.get_detection
      show ((db.detections ++ [(db.det_seq + 1,
          (⟨ts, cat, la, lo, pic, boolToInt b, boolToInt w, boolToInt c⟩ : DetectionRow))]).find?
          (fun p => p.1 == db.det_seq + 1)).map rowToDetectionRecord = _
      rw [find?_key_append hne]
      rfl
    · unfold DroneDB.get_all_detections
      exact List.mem_map_of_mem _ (List.mem_append_right _ (List.mem_singleton.mpr rfl))
  · intro db i t c la lo pic b w ch q hq
    cases hg : db.get_detection i with
    | none =>
      rw [update_detection_absent hg] at hq
      exact Or.inl hq
    | some cur =>
      rw [update_detection_found hg] at hq
      have hq' : q ∈ updateRows db.detections i (mergeDetection cur t c la lo pic b w ch) := hq
      unfold updateRows at hq'
      obtain ⟨p, hp, rfl⟩ := List.mem_map.mp hq'
      by_cases hpi : (p.1 == i) = true
      · rw [if_pos hpi]
        exact Or.inr ⟨boolToInt_eq_zero_or_one _, boolToInt_eq_zero_or_one _,
          boolToInt_eq_zero_or_one _⟩
      · rw [if_neg hpi]
        exact Or.inl hp

theorem detection_flags_zero_one_and_bool_witness :
    (∃ rec, dbDet1.get_detection 1 = some rec ∧ rec.bhp = true ∧ rec.worker = true ∧
      rec.change = false) ∧
    ((1, (⟨"2024-01-02T10:00:00", "X", 52, 21, none, 1, 1, 0⟩ : DetectionRow))
        ∈ dbDet1.detections ∨
      (((1 : Int) = 0 ∨ (1 : Int) = 1) ∧ ((1 : Int) = 0 ∨ (1 : Int) = 1) ∧
        ((0 : Int) = 0 ∨ (0 : Int) = 1))) :=
  ⟨(detection_flags_zero_one_and_bool.1 emptyDB dbDet1 "2024-01-02T10:00:00" "Worker"
      52 21 none true true false 1 emptyDB_WF (by rfl)).2.1,
   detection_flags_zero_one_and_bool.2 dbDet1 1 none (some "X") none none none none none
     none (1, ⟨"2024-01-02T10:00:00", "X", 52, 21, none, 1, 1, 0⟩) (by decide)⟩

/-- C5: for both tables, delete returns `True` iff a row with the given
id existed; on `False` the store is unchanged, and on `True` exactly the
row with that id is removed and every other row is kept. -/
theorem delete_true_iff_row_removed (db : DroneDB) (hwf : db.WF) (i : Int) :
    (((db.delete_flight_log i).1 = true ↔ ∃ p ∈ db.flight_logs, p.1 = i) ∧
      ((db.delete_flight_log i).1 = false → (db.delete_flight_log i).2 = db) ∧
      ((db.delete_flight_log i).1 = true →
        (db.delete_flight_log i).2.flight_logs.length + 1 = db.flight_logs.length ∧
        (∀ p ∈ db.flight_logs, p.1 ≠ i → p ∈ (db.delete_flight_log i).2.flight_logs) ∧
        (∀ p ∈ (db.delete_flight_log i).2.flight_logs, p.1 ≠ i ∧ p ∈ db.flight_logs))) ∧
    (((db.delete_detection i).1 = true ↔ ∃ p ∈ db.detections, p.1 = i) ∧
      ((db.delete_detection i).1 = false → (db.delete_detection i).2 = db) ∧
      ((db.delete_detection i).1 = true →
        (db.delete_detection i).2.detections.length + 1 = db.detections.length ∧
        (∀ p ∈ db.detections, p.1 ≠ i → p ∈ (db.delete_detection i).2.detections) ∧
        (∀ p ∈ (db.delete_detection i).2.detections, p.1 ≠ i ∧ p ∈ db.detections))) := by
  refine ⟨⟨delete_flight_log_flag db i, ?_, ?_⟩, ⟨delete_detection_flag db i, ?_, ?_⟩⟩
  · intro hfalse
    exact delete_flight_log_false
      (show db.delete_flight_log i = (false, (db.delete_flight_log i).2) by rw [← hfalse])
  · intro htrue
    obtain ⟨hfilter, hlen⟩ := delete_flight_log_true hwf.1
      (show db.delete_flight_log i = (true, (db.delete_flight_log i).2) by rw [← htrue])
    refine ⟨hlen, ?_, ?_⟩
    · intro p hp hpi
      rw [hfilter]
      exact List.mem_filter.mpr ⟨hp, by simpa using hpi⟩
    · intro p hp
      rw [hfilter] at hp
      obtain ⟨hmem, hpi⟩ := List.mem_filter.mp hp
      exact ⟨by simpa using hpi, hmem⟩
  · intro hfalse
    exact delete_detection_false
      (show db.delete_detection i = (false, (db.delete_detection i).2) by rw [← hfalse])
  · intro htrue
    obtain ⟨hfilter, hlen⟩ := delete_detection_true hwf.2.2.1
      (show db.delete_detection i = (true, (db.delete_detection i).2) by rw [← htrue])
    refine ⟨hlen, ?_, ?_⟩
    · intro p hp hpi
      rw [hfilter]
      exact List.mem_filter.mpr ⟨hp, by simpa using hpi⟩
    · intro p hp
      rw [hfilter] at hp
      obtain ⟨hmem, hpi⟩ := List.mem_filter.mp hp
      exact ⟨by simpa using hpi, hmem⟩

theorem delete_true_iff_row_removed_witness :
    ((dbC1.delete_flight_log 1).1 = true ↔ ∃ p ∈ dbC1.flight_logs, p.1 = 1) ∧
    ((dbC1.delete_detection 5).1 = false → (dbC1.delete_detection 5).2 = dbC1) :=
  ⟨(delete_true_iff_row_removed dbC1 (by decide) 1).1.1,
   (delete_true_iff_row_removed dbC1 (by decide) 5).2.2.1⟩

/-- C6: a lookup by an id matching no stored row returns the `None`
sentinel from both `get_flight_log` and `get_detection`; absence is an
ordinary result, not an error (the only error in the model is the
`StorageError` of a failed write). -/
theorem get_absent_returns_none (db : DroneDB) (i : Int) :
    ((∀ p ∈ db.flight_logs, p.1 ≠ i) → db.get_flight_log i = none) ∧
    ((∀ p ∈ db.detections, p.1 ≠ i) → db.get_detection i = none) := by
  constructor
  · intro h
    unfold DroneDB.get_flight_log
    rw [find?_key_eq_none h]
    rfl
  · intro h
    unfold DroneDB.get_detection
    rw [find?_key_eq_none h]
    rfl

theorem get_absent_returns_none_witness :
    dbC1.get_flight_log 2 = none ∧ dbDet1.get_detection 2 = none :=
  ⟨(get_absent_returns_none dbC1 2).1 (by decide),
   (get_absent_returns_none dbDet1 2).2 (by decide)⟩

/-- C7: after any completed sequence of operations on an initially empty
store, the length of `get_all_flight_logs` equals the number of
`add_flight_log` calls minus the number of `delete_flight_log` calls that
returned `True`; in particular it is `0` when those numbers cancel. -/
theorem flight_log_count_invariant (ops : List Op) (dbf : DroneDB) (a s : Nat)
    (h : runOps emptyDB ops = .ok (dbf, a, s)) :
    s ≤ a ∧ dbf.get_all_flight_logs.length = a - s := by
  obtain ⟨hlen, -⟩ := runOps_flight_logs_length emptyDB_WF h
  have h0 : emptyDB.flight_logs.length = 0 := rfl
  have hlist : dbf.get_all_flight_logs.length = dbf.flight_logs.length := by
    unfold DroneDB.get_all_flight_logs
    exact List.length_map _ _
  constructor
  · omega
  · omega

theorem flight_log_count_invariant_witness :
    1 ≤ 2 ∧ dbW7.get_all_flight_logs.length = 2 - 1 :=
  flight_log_count_invariant opsW dbW7 2 1 (by rfl)

/-- C8: `add_flight_log` with telemetry `json.dumps` cannot serialize
fails with the explicit `StorageError`-class failure (distinct from the
`None`/`False` absence results and propagated to the caller) and inserts
no row: the store is returned unchanged. -/
theorem add_flight_log_serialization_failure (db : DroneDB) (ts : String)
    (td : PyTelemetry) (h : json_dumps td = none) :
    db.add_flight_log ts td = (.error .serializationError, db) :=
  add_flight_log_of_dumps_none h

theorem add_flight_log_serialization_failure_witness :
    emptyDB.add_flight_log "t" [("Roll", [.obj])] = (.error .serializationError, emptyDB) :=
  add_flight_log_serialization_failure emptyDB "t" [("Roll", [.obj])] (by rfl)

/-- C9: on a well-formed store each insert is assigned the id
`sequence + 1`, strictly greater than every stored id of its table (ids
are unique and monotonically increasing), and the first `add_flight_log`
on a fresh store is assigned id `1`. -/
theorem ids_monotonic_first_id_one :
    (∀ (db db' : DroneDB) (ts : String) (td : PyTelemetry) (i : Int), db.WF →
      db.add_flight_log ts td = (.ok i, db') →
      (∀ p ∈ db.flight_logs, p.1 < i) ∧ i = db.flight_seq + 1 ∧
        db'.flight_seq = i ∧ db'.WF) ∧
    (∀ (db db' : DroneDB) (ts cat : String) (la lo : Rat) (pic : Option String)
        (b w c : Bool) (i : Int), db.WF →
      db.add_detection ts cat la lo pic b w c = (i, db') →
      (∀ p ∈ db.detections, p.1 < i) ∧ i = db.det_seq + 1 ∧
        db'.det_seq = i ∧ db'.WF) ∧
    (∀ (ts : String) (td : PyTelemetry) (tj : TelemetryJson),
      json_dumps td = some tj → (emptyDB.add_flight_log ts td).1 = .ok 1) := by
  refine ⟨?_, ?_, ?_⟩
  · intro db db' ts td i hwf heq
    have hwf' := WF_add_flight_log hwf ts td
    rw [heq] at hwf'
    obtain ⟨tj, hdump, hi, hdb⟩ := add_flight_log_ok heq
    subst hi
    subst hdb
    refine ⟨?_, rfl, rfl, hwf'⟩
    intro p hp
    have := hwf.2.1 p hp
    omega
  · intro db db' ts cat la lo pic b w c i hwf heq
    have hwf' := WF_add_detection hwf ts cat la lo pic b w c
    rw [heq] at hwf'
    rw [add_detection_eq] at heq
    simp only [Prod.mk.injEq] at heq
    obtain ⟨hi, hdb⟩ := heq
    subst hi
    subst hdb
    refine ⟨?_, rfl, rfl, hwf'⟩
    intro p hp
    have := hwf.2.2.2 p hp
    omega
  · intro ts td tj hdump
    rw [add_flight_log_of_dumps hdump]
    rfl

theorem ids_monotonic_first_id_one_witness :
    ((∀ p ∈ dbC1.flight_logs, p.1 < 2) ∧ (2 : Int) = dbC1.flight_seq + 1 ∧
      dbW9.flight_seq = 2 ∧ dbW9.WF) ∧
    (emptyDB.add_flight_log "2024-01-01T00:00:00" tdC1).1 = .ok 1 :=
  ⟨ids_monotonic_first_id_one.1 dbC1 dbW9 "t3" [] 2 (by decide) (by rfl),
   ids_monotonic_first_id_one.2.2 "2024-01-01T00:00:00" tdC1 tjC1 (by rfl)⟩
